import Mathlib

/-!
Shallow embedding of the query-understanding and SQL-construction core of the
althinect-chatbot repository (src/parsers.py, src/sql_builder.py, src/config.py),
together with theorems settling the frozen claims about it.

Strings are modelled as Lean strings over their character lists; the Python
string operations used by the source (lower, strip, substring membership,
the regex scan for stenter numbers, str.format) are embedded as executable
functions on character lists, restricted to the ASCII behaviour the source
relies on.
-/

set_option autoImplicit false
set_option maxRecDepth 100000

namespace Althinect

/-- ASCII space character, written by code point to keep literals simple. -/
def spaceChar : Char := Char.ofNat 32

/-- Opening curly brace character. -/
def openBrace : Char := Char.ofNat 123

/-- Closing curly brace character. -/
def closeBrace : Char := Char.ofNat 125

/-- Python str.lower for a single ASCII character. -/
def lowerChar (c : Char) : Char :=
  if decide (65 ≤ c.toNat) && decide (c.toNat ≤ 90) then Char.ofNat (c.toNat + 32) else c

/-- Python str.lower over the characters of a string. -/
def lowerL (l : List Char) : List Char := l.map lowerChar

/-- Python regex class backslash-d restricted to ASCII digits 0..9. -/
def isPyDigit (c : Char) : Bool :=
  decide (48 ≤ c.toNat) && decide (c.toNat ≤ 57)

/-- Python regex whitespace class restricted to ASCII. -/
def isPySpace (c : Char) : Bool :=
  c == spaceChar || c == '\t' || c == '\n' || c == '\r' || c == '\x0b' || c == '\x0c'

/-- Boolean test that the first list is an initial segment of the second. -/
def leadsWith : List Char → List Char → Bool
  | [], _ => true
  | _ :: _, [] => false
  | a :: as, b :: bs => a == b && leadsWith as bs

/-- Python substring membership: containsSub needle hay models needle in hay. -/
def containsSub (needle : List Char) : List Char → Bool
  | [] => needle.isEmpty
  | c :: t => leadsWith needle (c :: t) || containsSub needle t

/-- Python expression pat in hay, for a string literal pattern over a char list. -/
def pyIn (pat : String) (hay : List Char) : Bool := containsSub pat.toList hay

/-- Python str.strip over the ASCII whitespace class. -/
def pyStrip (l : List Char) : List Char :=
  ((l.dropWhile isPySpace).reverse.dropWhile isPySpace).reverse

/-- Python sep.join of a list of strings. -/
def joinSep (sep : String) : List String → String
  | [] => ""
  | [x] => x
  | x :: xs => x ++ sep ++ joinSep sep xs

/-! ### src/config.py: MACHINE_MAPPINGS

The configuration file in the repository defines the production category with
two entries (the remaining entries are elided in the source with a comment),
and no other category key is present in the dictionary literal. -/

/-- MACHINE_MAPPINGS of the production category, as written in src/config.py. -/
def productionMapping : List (String × String) :=
  [("stenter1", "TJ-Stenter01 Length(ioid2)"),
   ("stenter01", "TJ-Stenter01 Length(ioid2)")]

/-- MACHINE_MAPPINGS: a dictionary from category name to a dictionary from
machine identifier to device name, embedded as association lists in insertion
order. Only the production key appears in src/config.py. -/
def MACHINE_MAPPINGS : List (String × List (String × String)) :=
  [("production", productionMapping)]

/-! ### src/parsers.py: QueryParser

Each method of QueryParser is a pure function of the query string (and, for
extract_date_range, of the wall-clock date, which the embedding injects as an
explicit parameter in place of datetime.now()). -/

/-- Casual patterns of QueryParser.__init__. -/
def casual_patterns : List String :=
  ["hello", "hi", "hey", "thank you", "thanks", "bye"]

/-- QueryParser.is_casual_query: lowercase, strip, then test whether any casual
pattern occurs as a substring. -/
def is_casual_query (query : String) : Bool :=
  let query_lower := pyStrip (lowerL query.toList)
  casual_patterns.any (fun pattern => pyIn pattern query_lower)

/-- Production keyword test of detect_query_type. -/
def prodKw (ql : List Char) : Bool :=
  ["production", "length", "fabric length", "output"].any (fun w => pyIn w ql)

/-- Energy keyword test of detect_query_type. -/
def energyKw (ql : List Char) : Bool :=
  ["energy", "consumption", "power"].any (fun w => pyIn w ql)

/-- Utilization keyword test of detect_query_type. -/
def utilKw (ql : List Char) : Bool :=
  ["utilization", "efficiency", "uptime", "status"].any (fun w => pyIn w ql)

/-- QueryParser.detect_query_type: an if/elif chain over the three keyword
sets, defaulting to production. -/
def detect_query_type (query : String) : String :=
  let query_lower := lowerL query.toList
  if prodKw query_lower then "production"
  else if energyKw query_lower then "energy"
  else if utilKw query_lower then "utilization"
  else "production"

/-! ### The regex scan of extract_machine_numbers

re.findall applied to the pattern stenter backslash-s star capture of one or
more digits is embedded as a left-to-right character automaton. The state is a
pair: progress k through the literal letters s t e n t e r (k = 7 meaning the
literal has been fully matched), and the buffer of captured digit characters
(nonempty only when k = 7). Because the letter s occurs in the literal only at
its first position, a failed attempt can only be restarted at the failing
character itself, which the automaton does with restartK. -/

/-- Character expected at position k of the literal stenter. -/
def expectedChar : Nat → Char
  | 0 => 's'
  | 1 => 't'
  | 2 => 'e'
  | 3 => 'n'
  | 4 => 't'
  | 5 => 'e'
  | 6 => 'r'
  | _ => spaceChar

/-- Restart state after a mismatch at character c. -/
def restartK (c : Char) : Nat := if c == 's' then 1 else 0

/-- Automaton for re.findall of the stenter pattern: k is the number of
literal characters matched (7 = literal complete), buf the digits captured so
far; returns the list of captured digit groups in order of occurrence. -/
def scanRun : Nat → List Char → List Char → List (List Char)
  | k, buf, [] => if k == 7 && !buf.isEmpty then [buf] else []
  | k, buf, c :: rest =>
    if k == 7 then
      if isPyDigit c then scanRun 7 (buf ++ [c]) rest
      else if buf.isEmpty then
        (if isPySpace c then scanRun 7 [] rest else scanRun (restartK c) [] rest)
      else buf :: scanRun (restartK c) [] rest
    else if c == expectedChar k then scanRun (k + 1) [] rest
    else scanRun (restartK c) [] rest

/-- re.findall of the stenter pattern over the lowercased query. -/
def findStenterNums (query : String) : List (List Char) :=
  scanRun 0 [] (lowerL query.toList)

/-- QueryParser.extract_machine_numbers: captured stenter numbers first;
otherwise the all machines phrases expand to the keys of the production
mapping; otherwise the empty list. -/
def extract_machine_numbers (query : String) : List String :=
  let query_lower := lowerL query.toList
  let stenter_matches := findStenterNums query
  if !stenter_matches.isEmpty then
    stenter_matches.map (fun num => "stenter" ++ String.mk num)
  else if ["all machines", "all stenters"].any (fun phrase => pyIn phrase query_lower) then
    productionMapping.map Prod.fst
  else []

/-! ### Dates

datetime.now() is injected as an explicit PyDate parameter; the Gregorian
calendar arithmetic of timedelta subtraction and the zero-padded strftime
format are embedded directly. -/

/-- A calendar date as used by datetime.date. -/
structure PyDate where
  year : Nat
  month : Nat
  day : Nat
deriving DecidableEq

/-- Gregorian leap-year rule. -/
def isLeap (y : Nat) : Bool :=
  y % 4 == 0 && (y % 100 != 0 || y % 400 == 0)

/-- Number of days of month m in year y. -/
def daysInMonth (y m : Nat) : Nat :=
  if m == 2 then (if isLeap y then 29 else 28)
  else if m == 4 || m == 6 || m == 9 || m == 11 then 30
  else 31

/-- The calendar day before d. -/
def prevDay (d : PyDate) : PyDate :=
  if 1 < d.day then ⟨d.year, d.month, d.day - 1⟩
  else if 1 < d.month then ⟨d.year, d.month - 1, daysInMonth d.year (d.month - 1)⟩
  else ⟨d.year - 1, 12, 31⟩

/-- timedelta subtraction of n days. -/
def subDays : Nat → PyDate → PyDate
  | 0, d => d
  | n + 1, d => subDays n (prevDay d)

/-- Zero-padded two-digit rendering of strftime. -/
def pad2 (n : Nat) : String := if n < 10 then "0" ++ toString n else toString n

/-- Zero-padded four-digit rendering of strftime for the year field. -/
def pad4 (n : Nat) : String :=
  if n < 10 then "000" ++ toString n
  else if n < 100 then "00" ++ toString n
  else if n < 1000 then "0" ++ toString n
  else toString n

/-- strftime with the year-month-day ISO format. -/
def fmtDate (d : PyDate) : String :=
  pad4 d.year ++ "-" ++ pad2 d.month ++ "-" ++ pad2 d.day

/-- Month mappings dictionary of extract_date_range, in insertion order. -/
def month_mappings : List (String × (String × String)) :=
  [("january", ("2025-01-01", "2025-01-31")),
   ("february", ("2025-02-01", "2025-02-28")),
   ("march", ("2025-03-01", "2025-03-31")),
   ("april", ("2025-04-01", "2025-04-30")),
   ("may", ("2025-05-01", "2025-05-31"))]

/-- QueryParser.extract_date_range with datetime.now() injected as the
parameter now: the first month name found in the dictionary order wins, then
the relative phrases, then the default of the first day of the current month
through today. -/
def extract_date_range (query : String) (now : PyDate) : String × String :=
  let query_lower := lowerL query.toList
  match month_mappings.find? (fun m => pyIn m.1 query_lower) with
  | some m => m.2
  | none =>
    if ["last 7 days", "past week"].any (fun phrase => pyIn phrase query_lower) then
      (fmtDate (subDays 7 now), fmtDate now)
    else
      (fmtDate ⟨now.year, now.month, 1⟩, fmtDate now)

/-- QueryParser.detect_visualization_needs: the visualization flag from the
keyword list, and the chart type from the line, pie, bar priority chain with
bar as the default. -/
def detect_visualization_needs (query : String) : Bool × String :=
  let query_lower := lowerL query.toList
  let needs_viz := ["plot", "chart", "graph", "visualize", "show"].any
    (fun keyword => pyIn keyword query_lower)
  let chart_type :=
    if pyIn "line" query_lower then "line"
    else if pyIn "pie" query_lower then "pie"
    else "bar"
  (needs_viz, chart_type)

/-! ### src/sql_builder.py: SQLBuilder

build_device_filter resolves each machine through the category-scoped mapping
dictionary, dropping identifiers that are not keys, and renders either an
equality clause (exactly one resolved name) or an IN clause (any other count,
including zero). A missing category key in MACHINE_MAPPINGS is a Python
KeyError, embedded as the none result. -/

/-- Equality filter f-string of build_device_filter. -/
def eqClause (n : String) : String :=
  "AND device_id = (SELECT virtual_device_id FROM devices WHERE device_name = '" ++ n ++ "')"

/-- IN filter f-string of build_device_filter, joining the resolved names. -/
def inClause (names : List String) : String :=
  "AND device_id IN (SELECT virtual_device_id FROM devices WHERE device_name IN ('"
    ++ joinSep "', '" names ++ "'))"

/-- SQLBuilder.build_device_filter. The none result models the KeyError raised
when query_type is not a key of MACHINE_MAPPINGS. -/
def build_device_filter (machines : List String) (query_type : String) : Option String :=
  if machines.isEmpty then some ""
  else
    match List.lookup query_type MACHINE_MAPPINGS with
    | none => none
    | some mapping =>
      let machine_names := machines.filterMap (fun machine => List.lookup machine mapping)
      match machine_names with
      | [n] => some (eqClause n)
      | _ => some (inClause machine_names)

/-- Names resolved by the loop of build_device_filter: the mapping outputs of
the machines that are keys of the category-scoped dictionary, in order. -/
def resolvedNames (machines : List String) (query_type : String) : List String :=
  match List.lookup query_type MACHINE_MAPPINGS with
  | none => []
  | some mapping => machines.filterMap (fun machine => List.lookup machine mapping)

/-- Rendering of the final branch of build_device_filter as a function of the
resolved names alone. -/
def renderFilter : List String → String
  | [n] => eqClause n
  | names => inClause names

/-! ### Templates and str.format

The templates dictionary of SQLBuilder._load_templates holds the single
daily_production entry, a SQL skeleton containing no format placeholders.
str.format over named fields is embedded as a character automaton: doubled
braces are literal braces, a single opening brace starts a field whose name
runs to the closing brace and is substituted from the parameter list, a
missing parameter is the KeyError of the source, and a dangling brace is the
ValueError that format raises on malformed templates. -/

/-- The daily_production template string of _load_templates, with the exact
layout of the Python triple-quoted literal. -/
def daily_production_template : String :=
  "\n            WITH device_lookup AS (\n                SELECT virtual_device_id, device_name FROM devices\n            ),\n            production_calculation AS (\n                -- Your existing template logic\n            )\n            SELECT * FROM production_calculation;\n            "

/-- The templates dictionary of SQLBuilder. -/
def templates : List (String × String) :=
  [("daily_production", daily_production_template)]

/-- Failure modes of str.format: a missing named parameter (KeyError) or a
malformed template (ValueError). -/
inductive FmtErr where
  | missingParam (name : String)
  | malformed
deriving DecidableEq

/-- Parsing state of the str.format automaton. -/
inductive FmtSt where
  | norm
  | openB
  | closeB
  | field (acc : List Char)
deriving DecidableEq

/-- str.format over named fields as a character automaton. -/
def fmtRun (params : List (String × String)) : FmtSt → List Char → Except FmtErr (List Char)
  | st, [] =>
    match st with
    | .norm => .ok []
    | _ => .error .malformed
  | .norm, c :: rest =>
    if c == openBrace then fmtRun params .openB rest
    else if c == closeBrace then fmtRun params .closeB rest
    else
      match fmtRun params .norm rest with
      | .ok out => .ok (c :: out)
      | .error e => .error e
  | .openB, c :: rest =>
    if c == openBrace then
      match fmtRun params .norm rest with
      | .ok out => .ok (openBrace :: out)
      | .error e => .error e
    else if c == closeBrace then
      match List.lookup "" params with
      | some v =>
        match fmtRun params .norm rest with
        | .ok out => .ok (v.toList ++ out)
        | .error e => .error e
      | none => .error (.missingParam "")
    else fmtRun params (.field [c]) rest
  | .closeB, c :: rest =>
    if c == closeBrace then
      match fmtRun params .norm rest with
      | .ok out => .ok (closeBrace :: out)
      | .error e => .error e
    else .error .malformed
  | .field acc, c :: rest =>
    if c == closeBrace then
      match List.lookup (String.mk acc.reverse) params with
      | some v =>
        match fmtRun params .norm rest with
        | .ok out => .ok (v.toList ++ out)
        | .error e => .error e
      | none => .error (.missingParam (String.mk acc.reverse))
    else fmtRun params (.field (c :: acc)) rest

/-- Named fields occurring in a template, in order, by the same parse as
fmtRun but independent of any parameter binding. -/
def fieldScan : FmtSt → List Char → List String
  | _, [] => []
  | .norm, c :: rest =>
    if c == openBrace then fieldScan .openB rest
    else if c == closeBrace then fieldScan .closeB rest
    else fieldScan .norm rest
  | .openB, c :: rest =>
    if c == openBrace then fieldScan .norm rest
    else if c == closeBrace then "" :: fieldScan .norm rest
    else fieldScan (.field [c]) rest
  | .closeB, c :: rest =>
    if c == closeBrace then fieldScan .norm rest
    else []
  | .field acc, c :: rest =>
    if c == closeBrace then String.mk acc.reverse :: fieldScan .norm rest
    else fieldScan (.field (c :: acc)) rest

/-- Placeholder names of a template string. -/
def templateFields (t : String) : List String := fieldScan .norm t.toList

/-- Failure modes of SQLBuilder.build_query: the ValueError raised for an
unknown template name, the propagated KeyError of str.format for a missing
parameter, and the ValueError of str.format for a malformed template. -/
inductive BuildErr where
  | templateNotFound
  | missingParam (name : String)
  | malformed
deriving DecidableEq

/-- SQLBuilder.build_query: template lookup, then str.format substitution. -/
def build_query (template_name : String) (params : List (String × String)) :
    Except BuildErr String :=
  match List.lookup template_name templates with
  | none => .error .templateNotFound
  | some t =>
    match fmtRun params .norm t.toList with
    | .ok out => .ok (String.mk out)
    | .error (.missingParam p) => .error (.missingParam p)
    | .error .malformed => .error .malformed

/-- Absence of brace characters in a character list. -/
def noBraceL (l : List Char) : Bool :=
  l.all (fun c => !(c == openBrace) && !(c == closeBrace))

/-- Absence of brace characters, hence of placeholder markers, in a string. -/
def noBraceStr (s : String) : Bool := noBraceL s.toList

/-! ### Specification-side definitions

These restate parts of the specification in terms the theorems compare with
the source-derived functions above. -/

/-- Categories whose keyword set matches the query, in the canonical order
production, energy, utilization. -/
def matchedCategories (query : String) : List String :=
  let ql := lowerL query.toList
  (if prodKw ql then ["production"] else []) ++
    (if energyKw ql then ["energy"] else []) ++
      (if utilKw ql then ["utilization"] else [])

/-- First month-dictionary entry whose name occurs in the lowercased query,
if any, with its date range. -/
def monthHit (ql : List Char) : Option (String × String) :=
  (month_mappings.find? (fun m => pyIn m.1 ql)).map Prod.snd

/-- Literal characters of the word stenter. -/
def stenterChars : List Char := ['s', 't', 'e', 'n', 't', 'e', 'r']

/-- Query text built from a list of digit groups: one stenter mention per
group, each followed by a space. -/
def mkq : List (List Char) → List Char
  | [] => []
  | d :: ds => stenterChars ++ (spaceChar :: (d ++ (spaceChar :: mkq ds)))

/-! ## Helper lemmas -/

/-- A successful association-list lookup returns one of the stored values. -/
theorem lookup_mem_values {α β : Type} [BEq α] (k : α) :
    ∀ (l : List (α × β)) (v : β), List.lookup k l = some v → v ∈ l.map Prod.snd
  | [], v, h => by simp [List.lookup] at h
  | (a, b) :: t, v, h => by
    rw [List.lookup] at h
    cases hk : k == a with
    | true => rw [hk] at h; injection h with h; simp [h]
    | false =>
      rw [hk] at h
      simpa using Or.inr (lookup_mem_values k t v h)

/-- The format automaton copies a brace-free template unchanged, whatever the
parameter binding. -/
theorem fmtRun_noBrace (params : List (String × String)) :
    ∀ l : List Char, noBraceL l = true → fmtRun params .norm l = .ok l
  | [], _ => rfl
  | c :: rest, h => by
    have hc : (!(c == openBrace) && !(c == closeBrace)) = true ∧ noBraceL rest = true := by
      simpa [noBraceL, List.all_cons] using h
    have h1 : (c == openBrace) = false := by
      cases hcb : c == openBrace <;> simp [hcb] at hc ⊢
    have h2 : (c == closeBrace) = false := by
      cases hcb : c == closeBrace <;> simp [hcb] at hc ⊢
    rw [fmtRun, h1, h2]
    simp [fmtRun_noBrace params rest hc.2]

/-! ## Claim theorems -/

/-- C1: build_device_filter applied to a non-empty machines list in which no
identifier resolves does not return the empty string; on the production query
for the unknown machine stenter99 it returns a residual IN clause over the
empty joined list. This refutes the final part of the claim and witnesses the
divergence from the repository test that expects the empty string there. -/
theorem build_device_filter_unresolved_residual_clause :
    build_device_filter ["stenter99"] "production" =
      some "AND device_id IN (SELECT virtual_device_id FROM devices WHERE device_name IN (''))"
    ∧ build_device_filter ["stenter99"] "production" ≠ some "" :=
  ⟨by decide, by decide⟩

/-- C2: the casual-query classifier is a bare substring check, so the query
containing the casual token thanks together with domain vocabulary is
classified casual, contradicting the claim that domain words override. -/
theorem is_casual_query_domain_words_ignored :
    is_casual_query "thanks for the production report" = true := by decide

/-- C4: the phrase every machine is not among the phrases the source checks,
so machine extraction returns the empty list on a utilization query asking
for every machine, contradicting the claim (and the repository test) that the
full identifier set of the detected category is returned. -/
theorem extract_machine_numbers_every_machine_empty :
    extract_machine_numbers "every machine utilization" = [] := by decide

/-- C5 counterexample: a query matching both the production and the energy
keyword sets is classified production, not multi_metric. -/
theorem detect_query_type_no_multi_metric :
    detect_query_type "show production and energy consumption" = "production" ∧
    detect_query_type "show production and energy consumption" ≠ "multi_metric" :=
  ⟨by decide, by decide⟩

/-- C5 amended: detect_query_type returns the first category whose keyword
set matches, in the canonical order production, energy, utilization, and
defaults to production when no category matches. -/
theorem detect_query_type_first_matching_category (query : String) :
    detect_query_type query = (matchedCategories query).headD "production" := by
  unfold detect_query_type matchedCategories
  cases hp : prodKw (lowerL query.data) <;>
    cases he : energyKw (lowerL query.data) <;>
      cases hu : utilKw (lowerL query.data) <;>
        simp [hp, he, hu]

/-- C6 counterexample: june is an explicit month name, yet the extracted date
range for a june query is the current-month default of the injected clock
date, not the june calendar range, because the month dictionary of the source
stops at may. -/
theorem extract_date_range_june_not_mapped :
    extract_date_range "production in june" ⟨2025, 7, 10⟩ = ("2025-07-01", "2025-07-10") ∧
    (("2025-07-01", "2025-07-10") : String × String) ≠ ("2025-06-01", "2025-06-30") :=
  ⟨by decide, by decide⟩

/-- C6 amended: for the five recognized month names january through may, a
query containing such a name (the first found in dictionary order) yields
that month's fixed 2025 calendar range, for every clock date, taking priority
over relative phrases and the current-month default. -/
theorem extract_date_range_month_priority (query : String) (now : PyDate)
    (rng : String × String) (h : monthHit (lowerL query.toList) = some rng) :
    extract_date_range query now = rng := by
  simp only [String.toList] at h
  unfold monthHit at h
  cases hf : month_mappings.find? (fun m => pyIn m.1 (lowerL query.data)) with
  | none => rw [hf] at h; simp at h
  | some m =>
    rw [hf] at h
    simp at h
    simp [extract_date_range, String.toList, hf, ← h]

/-- C6 amended, witness: a march query with an unrelated clock date resolves
to the fixed march 2025 range, case-insensitively. -/
theorem extract_date_range_month_priority_witness :
    extract_date_range "Production in MARCH" ⟨2024, 1, 1⟩ = ("2025-03-01", "2025-03-31") :=
  extract_date_range_month_priority "Production in MARCH" ⟨2024, 1, 1⟩ _ (by decide)

/-- C10: the chart type is resolved by the fixed priority line, pie, bar with
bar as default, and is computed for every query together with the
independently derived visualization flag. -/
theorem detect_visualization_chart_priority (query : String) :
    (detect_visualization_needs query).2 =
      (if pyIn "line" (lowerL query.toList) then "line"
       else if pyIn "pie" (lowerL query.toList) then "pie"
       else "bar") ∧
    ((detect_visualization_needs query).2 = "line" ∨
      (detect_visualization_needs query).2 = "pie" ∨
      (detect_visualization_needs query).2 = "bar") ∧
    (detect_visualization_needs query).1 =
      ["plot", "chart", "graph", "visualize", "show"].any
        (fun keyword => pyIn keyword (lowerL query.toList)) := by
  refine ⟨rfl, ?_, rfl⟩
  unfold detect_visualization_needs
  cases h1 : pyIn "line" (lowerL query.data) <;>
    cases h2 : pyIn "pie" (lowerL query.data) <;>
      simp [h1, h2]

/-- C3: every name the device filter interpolates is an output of the
category-scoped mapping table, and the filter clause factors through the list
of resolved names, so it depends on the machines list only through which
mapping entries it selects; unresolved raw identifiers never reach the SQL
fragment. -/
theorem build_device_filter_injection_safe (machines : List String) (query_type : String)
    (mapping : List (String × String))
    (h : List.lookup query_type MACHINE_MAPPINGS = some mapping) :
    (∀ n ∈ resolvedNames machines query_type, n ∈ mapping.map Prod.snd) ∧
    build_device_filter machines query_type =
      some (if machines.isEmpty then "" else renderFilter (resolvedNames machines query_type)) := by
  constructor
  · intro n hn
    unfold resolvedNames at hn
    rw [h] at hn
    rcases List.mem_filterMap.mp hn with ⟨x, _, hlx⟩
    exact lookup_mem_values x mapping n hlx
  · unfold build_device_filter resolvedNames
    rw [h]
    cases hm : machines.isEmpty with
    | true => simp [hm]
    | false =>
      simp only [hm, Bool.false_eq_true, if_false]
      rcases hl : machines.filterMap (fun machine => List.lookup machine mapping) with
        _ | ⟨a, _ | ⟨b, t⟩⟩ <;> simp [renderFilter, hl]

/-- C3 witness: on a production query mixing one unresolvable and one
resolvable identifier, the resolved names are mapping outputs and the filter
is rendered from them alone. -/
theorem build_device_filter_injection_safe_witness :
    (∀ n ∈ resolvedNames ["stenter99", "stenter1"] "production",
      n ∈ productionMapping.map Prod.snd) ∧
    build_device_filter ["stenter99", "stenter1"] "production" =
      some (if (["stenter99", "stenter1"] : List String).isEmpty then ""
            else renderFilter (resolvedNames ["stenter99", "stenter1"] "production")) :=
  build_device_filter_injection_safe ["stenter99", "stenter1"] "production"
    productionMapping (by decide)

/-- C9: whenever the regex scan finds explicit stenter mentions, machine
extraction returns exactly their canonical forms and never consults the all
machines expansion. -/
theorem extract_machine_numbers_explicit_priority (query : String)
    (h : findStenterNums query ≠ []) :
    extract_machine_numbers query =
      (findStenterNums query).map (fun num => "stenter" ++ String.mk num) := by
  have hne : (findStenterNums query).isEmpty = false := by
    cases hq : findStenterNums query with
    | nil => exact absurd hq h
    | cons a t => rfl
  unfold extract_machine_numbers
  simp [hne]

/-- C9 witness: a query containing both the all machines phrase and an
explicit mention yields only the explicit machine. -/
theorem extract_machine_numbers_explicit_priority_witness :
    extract_machine_numbers "all machines and stenter 3" = ["stenter3"] :=
  (extract_machine_numbers_explicit_priority "all machines and stenter 3"
    (by decide)).trans (by decide)

/-- C8: build_query fails with the template-not-found error exactly when the
requested name has no registered template, fails with the missing-parameter
error exactly when the selected template has a placeholder with no bound
value (vacuous for the registered template set, which is placeholder-free),
and any normal return carries no brace characters, hence no unsubstituted
placeholder marker. -/
theorem build_query_error_contract (template_name : String) (params : List (String × String)) :
    (build_query template_name params = .error .templateNotFound ↔
      List.lookup template_name templates = none) ∧
    (∀ p, build_query template_name params = .error (.missingParam p) ↔
      ∃ t, List.lookup template_name templates = some t ∧
        p ∈ templateFields t ∧ List.lookup p params = none) ∧
    (∀ s, build_query template_name params = .ok s → noBraceStr s = true) := by
  cases ht : List.lookup template_name templates with
  | none =>
    unfold build_query
    rw [ht]
    refine ⟨by simp, fun p => ?_, by simp⟩
    constructor
    · intro hc; exact absurd hc (by simp)
    · rintro ⟨t, hsome, -, -⟩
      exact absurd hsome (by simp)
  | some t =>
    have htv : t = daily_production_template := by
      unfold templates at ht
      rw [List.lookup] at ht
      cases hk : template_name == "daily_production" with
      | true => rw [hk] at ht; injection ht with ht; exact ht.symm
      | false => rw [hk] at ht; exact absurd ht (by simp)
    subst htv
    have hfmt : fmtRun params .norm daily_production_template.data =
        .ok daily_production_template.data :=
      fmtRun_noBrace params daily_production_template.data (by decide)
    have hbq : build_query template_name params =
        .ok (String.mk daily_production_template.data) := by
      unfold build_query
      rw [ht]
      simp [hfmt]
    refine ⟨by rw [hbq]; simp [ht], fun p => ?_, fun s hs => ?_⟩
    · constructor
      · intro hc; rw [hbq] at hc; exact absurd hc (by simp)
      · rintro ⟨t', hsome, hmem, -⟩
        injection hsome with hsome
        have hempty : templateFields daily_production_template = [] := by decide
        rw [← hsome, hempty] at hmem
        exact absurd hmem (by simp)
    · rw [hbq] at hs
      injection hs with hs
      rw [← hs]
      decide

/-- C8 witness: a template name outside the registered set fails with the
template-not-found error. -/
theorem build_query_error_contract_witness :
    build_query "hourly_energy" [] = .error .templateNotFound :=
  ((build_query_error_contract "hourly_energy" []).1).mpr (by decide)

/-! ## Scan lemmas for machine extraction over constructed queries -/

/-- Scanning the stenter literal from the initial state advances the
automaton to the post-literal state. -/
theorem scan_literal (r : List Char) :
    scanRun 0 [] (stenterChars ++ r) = scanRun 7 [] r := rfl

/-- A space between the literal and the digits is skipped. -/
theorem scan_space (r : List Char) :
    scanRun 7 [] (spaceChar :: r) = scanRun 7 [] r := rfl

/-- Digit characters are appended to the capture buffer one by one. -/
theorem scan_digits : ∀ (d : List Char), d.all isPyDigit = true →
    ∀ (buf r : List Char), scanRun 7 buf (d ++ r) = scanRun 7 (buf ++ d) r
  | [], _, buf, r => by simp
  | c :: d, hd, buf, r => by
    rw [List.all_cons, Bool.and_eq_true] at hd
    rw [List.cons_append, scanRun]
    simp only [hd.1, if_true, Nat.reduceBEq, reduceIte]
    rw [scan_digits d hd.2 (buf ++ [c]) r]
    simp [List.append_assoc]

/-- A space after a non-empty capture buffer emits the captured group and
restarts the automaton. -/
theorem scan_emit (d : List Char) (hne : d ≠ []) (r : List Char) :
    scanRun 7 d (spaceChar :: r) = d :: scanRun 0 [] r := by
  have h1 : isPyDigit spaceChar = false := by decide
  have h2 : d.isEmpty = false := by
    cases d with
    | nil => exact absurd rfl hne
    | cons a t => rfl
  have h3 : (spaceChar == 's') = false := by decide
  rw [scanRun]
  simp [h1, h2, restartK, h3]

/-- The scan of a constructed query returns exactly its digit groups, in
order, duplicates included. -/
theorem scan_mkq : ∀ ds : List (List Char),
    (∀ d ∈ ds, d ≠ [] ∧ d.all isPyDigit = true) → scanRun 0 [] (mkq ds) = ds
  | [], _ => rfl
  | d :: ds, h => by
    have hd : d ≠ [] ∧ d.all isPyDigit = true := h d (by simp)
    have hds : ∀ x ∈ ds, x ≠ [] ∧ x.all isPyDigit = true :=
      fun x hx => h x (by simp [hx])
    rw [mkq, scan_literal, scan_space]
    rw [scan_digits d hd.2 [] (spaceChar :: mkq ds), List.nil_append]
    rw [scan_emit d hd.1, scan_mkq ds hds]

/-- Lowercasing a character list distributes over append. -/
theorem lowerL_append (a b : List Char) : lowerL (a ++ b) = lowerL a ++ lowerL b :=
  List.map_append lowerChar a b

/-- ASCII digits are fixed points of lowercasing. -/
theorem lowerChar_digit (c : Char) (hc : isPyDigit c = true) : lowerChar c = c := by
  unfold isPyDigit at hc
  simp only [Bool.and_eq_true, decide_eq_true_eq] at hc
  unfold lowerChar
  have h65 : (decide (65 ≤ c.toNat)) = false := decide_eq_false (by omega)
  simp [h65]

/-- Digit groups are fixed points of lowercasing. -/
theorem lowerL_digits : ∀ (d : List Char), d.all isPyDigit = true → lowerL d = d
  | [], _ => rfl
  | c :: t, hd => by
    rw [List.all_cons, Bool.and_eq_true] at hd
    show lowerChar c :: lowerL t = c :: t
    rw [lowerChar_digit c hd.1, lowerL_digits t hd.2]

/-- Constructed queries are fixed points of lowercasing. -/
theorem lowerL_mkq : ∀ ds : List (List Char),
    (∀ d ∈ ds, d.all isPyDigit = true) → lowerL (mkq ds) = mkq ds
  | [], _ => rfl
  | d :: ds, h => by
    rw [mkq, lowerL_append]
    show lowerL stenterChars ++ (lowerChar spaceChar :: lowerL (d ++ (spaceChar :: mkq ds))) = _
    rw [lowerL_append]
    show _ ++ (_ :: (_ ++ (lowerChar spaceChar :: lowerL (mkq ds)))) = _
    have h1 : lowerL stenterChars = stenterChars := by decide
    have h2 : lowerChar spaceChar = spaceChar := by decide
    rw [h1, h2, lowerL_digits d (h d (by simp)), lowerL_mkq ds (fun x hx => h x (by simp [hx]))]

/-- C7 counterexample: a zero-padded mention keeps its padding: stenter 09
canonicalizes to stenter09, not the unpadded stenter9 the claim requires. -/
theorem extract_machine_numbers_padding_kept :
    extract_machine_numbers "performance of stenter 09" = ["stenter09"] ∧
    (["stenter09"] : List String) ≠ ["stenter9"] :=
  ⟨by decide, by decide⟩

/-- C7 amended: for every query consisting of stenter mentions with arbitrary
digit groups, machine extraction returns one identifier stenter followed by
the digit text exactly as written per occurrence, in order of appearance,
with zero padding preserved and duplicates retained. -/
theorem extract_machine_numbers_matches_in_order (ds : List (List Char))
    (hne : ds ≠ []) (hd : ∀ d ∈ ds, d ≠ [] ∧ d.all isPyDigit = true) :
    extract_machine_numbers (String.mk (mkq ds)) =
      ds.map (fun d => "stenter" ++ String.mk d) := by
  have hscan : findStenterNums (String.mk (mkq ds)) = ds := by
    unfold findStenterNums
    have hlow : lowerL (String.mk (mkq ds)).toList = mkq ds := by
      show lowerL (mkq ds) = mkq ds
      exact lowerL_mkq ds (fun d hdm => (hd d hdm).2)
    rw [hlow]
    exact scan_mkq ds hd
  have hne2 : (findStenterNums (String.mk (mkq ds))).isEmpty = false := by
    rw [hscan]
    cases ds with
    | nil => exact absurd rfl hne
    | cons a t => rfl
  unfold extract_machine_numbers
  simp [hne2, hscan]
  intro hcon
  exact absurd hcon hne

/-- C7 amended, witness: three mentions with a zero-padded group and a
repeated machine produce the padded identifier and the duplicate entries. -/
theorem extract_machine_numbers_matches_in_order_witness :
    extract_machine_numbers (String.mk (mkq [['0', '9'], ['1'], ['1']])) =
      ["stenter09", "stenter1", "stenter1"] :=
  (extract_machine_numbers_matches_in_order [['0', '9'], ['1'], ['1']]
    (by decide) (by decide)).trans (by decide)

end Althinect




